import Mathlib

/-!
Verification development for the HDL Buspro protocol engine
(custom_components/buspro): a shallow embedding of the Light device state
machine (pybuspro/devices/light.py), the UDP client
(pybuspro/transport/udp_client.py) and the network interface
(pybuspro/transport/network_interface.py), together with theorems about
optimistic state updates, telegram dispatch, error handling, shutdown
idempotence and send serialization.

Machine integers are embedded as Nat (payload bytes, brightness levels).
Fallible code paths (Python exceptions such as IndexError on a short
payload) are embedded as Option results. Asynchronous send operations are
embedded as pure state transformers parametrised by an abstract
SendOutcome describing how the awaited send resolved (success, timeout,
or a socket error), matching the try/except structure of the source.
-/

namespace Buspro

/-- Operate codes of the telegrams the Light device inspects.
Modelled from the spec: the enums module (pybuspro/helpers/enums.py) is
not in the sources; the spec names the semantic kinds
single-channel-control, single-channel-control-response,
read-status-of-channels, read-status-of-channels-response and
scene-control-response, and states that an operate code is an enumerated
discriminator. -/
inductive OperateCode where
  | SingleChannelControl
  | SingleChannelControlResponse
  | ReadStatusOfChannels
  | ReadStatusOfChannelsResponse
  | SceneControlResponse
  | Other
  deriving DecidableEq

/-- A decoded telegram as the Light callback consumes it: an operate code
and a payload byte sequence. Addresses are filtered before the callback
in the missing device base class, so they play no role in the embedded
callback (light.py lines 22-41 never reads them). -/
structure Telegram where
  operate_code : OperateCode
  payload : List Nat
  deriving DecidableEq

/-- The mutable state of one Light device: its channel number, its cached
brightness (initialised to 0 in Light.__init__) and the previous non-zero
brightness (initialised to None). The device address is carried along but
never inspected by the embedded operations. -/
structure LightState where
  device_address : Nat × Nat
  channel : Nat
  brightness : Nat
  previous_brightness : Option Nat
  deriving DecidableEq

/-- Light.__init__ (light.py lines 9-20): brightness starts at 0 and
previous_brightness starts at None. -/
def lightInit (device_address : Nat × Nat) (channel_number : Nat) : LightState :=
  { device_address := device_address
    channel := channel_number
    brightness := 0
    previous_brightness := none }

/-- Light.supports_brightness (light.py lines 61-63): always true. -/
def supports_brightness : Bool := true

/-- Light._set_previous_brightness (light.py lines 104-106): records the
brightness as the previous value only when the device supports brightness
and the value is strictly positive. -/
def set_previous_brightness (s : LightState) (brightness : Nat) : LightState :=
  if supports_brightness = true ∧ 0 < brightness then
    { s with previous_brightness := some brightness }
  else
    s

/-- How an awaited send resolved: handed to the transport, timed out
(asyncio.TimeoutError), or failed with some other exception. -/
inductive SendOutcome where
  | ok
  | timeout
  | socketError
  deriving DecidableEq

/-- Result of a Light command method: the device state after the call,
the boolean the method returns, and how many observer notifications
(_call_device_updated) the call emitted. -/
structure SetResult where
  state : LightState
  success : Bool
  notifications : Nat
  deriving DecidableEq

/-- Light._set (light.py lines 77-102): under the command lock, first
mutate brightness and the previous value optimistically, then build and
send the SingleChannelControl command under a 500 ms timeout; return True
on success and False on TimeoutError or any other exception, without
rolling the state back. _set never calls _call_device_updated, so it
emits zero notifications. -/
def light_set (s : LightState) (intensity : Nat) (outcome : SendOutcome) : SetResult :=
  let s1 := { s with brightness := intensity }
  let s2 := set_previous_brightness s1 s1.brightness
  match outcome with
  | SendOutcome.ok => { state := s2, success := true, notifications := 0 }
  | SendOutcome.timeout => { state := s2, success := false, notifications := 0 }
  | SendOutcome.socketError => { state := s2, success := false, notifications := 0 }

/-- Light.set_off (light.py lines 47-49): fixed intensity 0. -/
def set_off (s : LightState) (outcome : SendOutcome) : SetResult :=
  light_set s 0 outcome

/-- Light.set_brightness (light.py lines 51-52). -/
def set_brightness (s : LightState) (intensity : Nat) (outcome : SendOutcome) : SetResult :=
  light_set s intensity outcome

/-- Result of delivering one telegram to Light._telegram_received_cb: the
state afterwards, how many observer notifications were emitted, and
whether a status re-read was triggered (SceneControlResponse branch). -/
structure CbResult where
  state : LightState
  notifications : Nat
  status_read_triggered : Bool
  deriving DecidableEq

/-- Light._telegram_received_cb (light.py lines 22-41). For a
SingleChannelControlResponse the Python code reads payload[0] and
payload[2] before comparing the channel, so a payload shorter than 3
raises IndexError: embedded as none. For a ReadStatusOfChannelsResponse
it reads payload[0], and payload[channel] only inside the matching
branch. All other operate codes leave the state untouched. -/
def telegram_received_cb (s : LightState) (t : Telegram) : Option CbResult :=
  match t.operate_code with
  | OperateCode.SingleChannelControlResponse =>
    match t.payload[0]?, t.payload[2]? with
    | some channel, some brightness =>
      if channel = s.channel then
        let s1 := { s with brightness := brightness }
        let s2 := set_previous_brightness s1 s1.brightness
        some { state := s2, notifications := 1, status_read_triggered := false }
      else
        some { state := s, notifications := 0, status_read_triggered := false }
    | _, _ => none
  | OperateCode.ReadStatusOfChannelsResponse =>
    match t.payload[0]? with
    | some count =>
      if s.channel ≤ count then
        match t.payload[s.channel]? with
        | some b =>
          let s1 := { s with brightness := b }
          let s2 := set_previous_brightness s1 s1.brightness
          some { state := s2, notifications := 1, status_read_triggered := false }
        | none => none
      else
        some { state := s, notifications := 0, status_read_triggered := false }
    | none => none
  | OperateCode.SceneControlResponse =>
    some { state := s, notifications := 0, status_read_triggered := true }
  | _ => some { state := s, notifications := 0, status_read_triggered := false }

/-- The asyncio datagram transport as the UDP client sees it: closing an
already closed transport is a documented no-op in asyncio, embedded as
setting the closed flag. -/
structure UdpTransport where
  closed : Bool
  deriving DecidableEq

/-- UDPClient state: the transport reference, None until _connect
succeeds (udp_client.py lines 32-38). -/
structure UDPClientState where
  transport : Option UdpTransport
  deriving DecidableEq

/-- UDPClient.send_message (udp_client.py lines 83-98): returns False
when the transport is None, acquires the send lock, sends under a 500 ms
timeout; returns True when sendto was reached, False on TimeoutError or
any other exception. The function is total: no exception escapes. -/
def send_message (c : UDPClientState) (outcome : SendOutcome) : Bool :=
  match c.transport with
  | none => false
  | some _ =>
    match outcome with
    | SendOutcome.ok => true
    | SendOutcome.timeout => false
    | SendOutcome.socketError => false

/-- UDPClient.stop (udp_client.py lines 79-81): closes the transport when
one is present; the reference itself is kept. -/
def udp_stop (c : UDPClientState) : UDPClientState :=
  match c.transport with
  | none => c
  | some t => { c with transport := some { t with closed := true } }

/-- NetworkInterface state: the owned UDP client (None after stop) and
whether a dispatch callback is registered
(network_interface.py lines 10-20, 41-42). -/
structure NetworkInterfaceState where
  udp_client : Option UDPClientState
  callback_registered : Bool
  deriving DecidableEq

/-- NetworkInterface.stop (network_interface.py lines 47-50): when a UDP
client is present, stop it and drop the reference; otherwise do
nothing. -/
def ni_stop (n : NetworkInterfaceState) : NetworkInterfaceState :=
  match n.udp_client with
  | none => n
  | some _ => { n with udp_client := none }

/-- Minimum frame length accepted by the decoder.
Modelled from the spec: the wire layout of section 6 is a fixed
multi-byte marker (embedded as 2 bytes), 2 bytes source address, 2 bytes
target address, a 2 byte discriminator and a 2 byte operate code, before
the payload. -/
def min_frame_length : Nat := 10

/-- Numeric operate codes of the decoder.
Modelled from the spec: the enums module is not in the sources; the
numeric values are representative two-byte codes, and no claim depends on
the particular numbers. -/
def operate_code_of_nat (n : Nat) : OperateCode :=
  if n = 49 then OperateCode.SingleChannelControl
  else if n = 50 then OperateCode.SingleChannelControlResponse
  else if n = 51 then OperateCode.ReadStatusOfChannels
  else if n = 52 then OperateCode.ReadStatusOfChannelsResponse
  else if n = 2 then OperateCode.SceneControlResponse
  else OperateCode.Other

/-- TelegramHelper.build_telegram_from_udp_data.
Modelled from the spec: the helpers module
(pybuspro/helpers/telegram_helper.py) is not in the sources. Section 4.1
states that decoding fails with a MalformedFrame condition when the byte
sequence is shorter than the minimum frame size, and that callers must
treat decode failure as drop and continue; the failure is embedded as
none. A well-formed frame decodes to its operate code (bytes 8 and 9)
and payload (the remaining bytes), following the section 6 layout. -/
def build_telegram_from_udp_data (data : List Nat) : Option Telegram :=
  if data.length < min_frame_length then
    none
  else
    some { operate_code := operate_code_of_nat (data.getD 8 0 * 256 + data.getD 9 0)
           payload := data.drop 10 }

/-- What one datagram receipt does at the dispatch point: either the
callback slot is empty and nothing happens, or the registered callback is
invoked with the decode result. -/
inductive RecvEffect where
  | no_callback
  | dispatched (value : Option Telegram)
  deriving DecidableEq

/-- NetworkInterface._udp_request_received
(network_interface.py lines 22-25): when a callback is registered, decode
the datagram and invoke the callback with the result — the decode result
is passed to the callback unconditionally, with no guard between the
decode step and the dispatch step. -/
def udp_request_received (n : NetworkInterfaceState) (data : List Nat) : RecvEffect :=
  if n.callback_registered = true then
    RecvEffect.dispatched (build_telegram_from_udp_data data)
  else
    RecvEffect.no_callback

/-- Where one sending task stands in UDPClient.send_message: before the
async with on the send lock, inside the locked region performing the
send, or finished. -/
inductive TaskPhase where
  | idle
  | sending
  | done
  deriving DecidableEq

/-- The shared-transport system: n tasks concurrently executing
UDPClient.send_message, one send lock (udp_client.py line 38 and
line 89). lock_holder records which task currently holds
self._send_lock. -/
structure SendSystem (n : Nat) where
  lock_holder : Option (Fin n)
  phase : Fin n → TaskPhase

/-- Initially no task holds the lock and every task is before its
send. -/
def sendInit (n : Nat) : SendSystem n :=
  { lock_holder := none, phase := fun _ => TaskPhase.idle }

/-- Interleaving semantics of the async with self._send_lock block in
send_message: a task enters the sending region only when the lock is
free, taking the lock; it leaves the region by releasing the lock it
holds. -/
inductive SendStep {n : Nat} : SendSystem n → SendSystem n → Prop where
  | acquire (s : SendSystem n) (i : Fin n)
      (hidle : s.phase i = TaskPhase.idle)
      (hfree : s.lock_holder = none) :
      SendStep s { lock_holder := some i
                   phase := Function.update s.phase i TaskPhase.sending }
  | release (s : SendSystem n) (i : Fin n)
      (hsend : s.phase i = TaskPhase.sending)
      (hheld : s.lock_holder = some i) :
      SendStep s { lock_holder := none
                   phase := Function.update s.phase i TaskPhase.done }

/-- Inductive invariant: any task inside the sending region holds the
lock. -/
def lock_protects {n : Nat} (s : SendSystem n) : Prop :=
  ∀ i : Fin n, s.phase i = TaskPhase.sending → s.lock_holder = some i

/-- Mutual exclusion: at most one task is inside the sending region. -/
def at_most_one_sending {n : Nat} (s : SendSystem n) : Prop :=
  ∀ i j : Fin n, s.phase i = TaskPhase.sending → s.phase j = TaskPhase.sending → i = j

theorem lock_protects_init (n : Nat) : lock_protects (sendInit n) := by
  intro i h
  simp [sendInit] at h

theorem lock_protects_step {n : Nat} {a b : SendSystem n}
    (hstep : SendStep a b) (ha : lock_protects a) : lock_protects b := by
  cases hstep with
  | acquire i hidle hfree =>
    intro j hj
    by_cases hij : j = i
    · subst hij; rfl
    · simp only [Function.update_apply] at hj
      rw [if_neg hij] at hj
      exact absurd (ha j hj) (by rw [hfree]; exact fun h => Option.noConfusion h)
  | release i hsend hheld =>
    intro j hj
    by_cases hij : j = i
    · subst hij
      simp only [Function.update_apply, if_pos rfl] at hj
      exact absurd hj (by intro h; exact TaskPhase.noConfusion h)
    · simp only [Function.update_apply] at hj
      rw [if_neg hij] at hj
      have hj2 := ha j hj
      rw [hheld] at hj2
      exact absurd (Option.some.inj hj2) (fun h => hij (h.symm))

theorem lock_protects_reachable {n : Nat} {s : SendSystem n}
    (h : Relation.ReflTransGen SendStep (sendInit n) s) : lock_protects s := by
  induction h with
  | refl => exact lock_protects_init n
  | tail _ hstep ih => exact lock_protects_step hstep ih

/-- Helper: set_previous_brightness never changes the brightness
field. -/
theorem set_previous_brightness_brightness (s : LightState) (b : Nat) :
    (set_previous_brightness s b).brightness = s.brightness := by
  unfold set_previous_brightness
  split <;> rfl

/-- Helper: set_previous_brightness never changes the channel field. -/
theorem set_previous_brightness_channel (s : LightState) (b : Nat) :
    (set_previous_brightness s b).channel = s.channel := by
  unfold set_previous_brightness
  split <;> rfl

/-- Helper: light_set leaves the channel unchanged. -/
theorem light_set_channel (s : LightState) (v : Nat) (o : SendOutcome) :
    (light_set s v o).state.channel = s.channel := by
  unfold light_set
  cases o <;> simp [set_previous_brightness_channel]

/-- Helper: the state light_set produces, independent of the send
outcome. -/
theorem light_set_state (s : LightState) (v : Nat) (o : SendOutcome) :
    (light_set s v o).state = set_previous_brightness { s with brightness := v } v := by
  unfold light_set
  cases o <;> rfl

/-- C3: a SingleChannelControlResponse whose payload channel equals the
channel of the device sets the cached brightness to the reported level
payload[2]; in particular after set_brightness v the authoritative
response reporting w overwrites the optimistic v with w. -/
theorem C3_authoritative_overwrites (s : LightState) (v w : Nat) (o : SendOutcome)
    (t : Telegram)
    (hop : t.operate_code = OperateCode.SingleChannelControlResponse)
    (h0 : t.payload[0]? = some s.channel)
    (h2 : t.payload[2]? = some w) :
    (telegram_received_cb s t).map (fun r => r.state.brightness) = some w ∧
    (telegram_received_cb (set_brightness s v o).state t).map
      (fun r => r.state.brightness) = some w := by
  constructor
  · simp [telegram_received_cb, hop, h0, h2, set_previous_brightness_brightness]
  · have hch : (set_brightness s v o).state.channel = s.channel := light_set_channel s v o
    simp [telegram_received_cb, hop, h0, h2, hch, set_previous_brightness_brightness]

/-- C3 witness: a device on channel 1, optimistically set to 60, then a
response reporting 75 on channel 1: the cached brightness becomes 75. -/
theorem C3_authoritative_overwrites_witness :
    (telegram_received_cb (lightInit (1, 2) 1)
        { operate_code := OperateCode.SingleChannelControlResponse
          payload := [1, 1, 75] }).map (fun r => r.state.brightness) = some 75 ∧
    (telegram_received_cb (set_brightness (lightInit (1, 2) 1) 60 SendOutcome.ok).state
        { operate_code := OperateCode.SingleChannelControlResponse
          payload := [1, 1, 75] }).map (fun r => r.state.brightness) = some 75 :=
  C3_authoritative_overwrites (lightInit (1, 2) 1) 60 75 SendOutcome.ok
    { operate_code := OperateCode.SingleChannelControlResponse
      payload := [1, 1, 75] }
    rfl rfl rfl

/-- C5: UDPClient.send_message is total (the embedded function returns a
Bool for every transport state and send outcome, mirroring the except
clauses that swallow TimeoutError and every other exception) and returns
True exactly when a transport is present and the send was handed to it;
it returns False when the transport is None, on timeout, and on a socket
error. -/
theorem C5_send_message_returns_bool (c : UDPClientState) (o : SendOutcome) :
    send_message c o = true ↔ (c.transport.isSome = true ∧ o = SendOutcome.ok) := by
  cases c with
  | mk t => cases t <;> cases o <;> simp [send_message]

/-- C6: stop is idempotent on both layers: stopping an already stopped
UDP client or network interface changes nothing (and, being total
functions, the embedded stops raise no error); after a network-interface
stop the UDP client reference is dropped, and a UDP-client stop leaves
any present transport closed. -/
theorem C6_stop_idempotent (c : UDPClientState) (n : NetworkInterfaceState)
    (t : UdpTransport) :
    udp_stop (udp_stop c) = udp_stop c ∧
    ni_stop (ni_stop n) = ni_stop n ∧
    (ni_stop n).udp_client = none ∧
    (udp_stop { transport := some t }).transport = some { closed := true } := by
  refine ⟨?_, ?_, ?_, ?_⟩
  · cases c with
    | mk tr => cases tr <;> simp [udp_stop]
  · cases n with
    | mk u cb => cases u <;> simp [ni_stop]
  · cases n with
    | mk u cb => cases u <;> simp [ni_stop]
  · simp [udp_stop]

/-- C7: a response telegram that does not address the channel of the
device leaves the state untouched, emits no notification and triggers no
status read: a SingleChannelControlResponse whose payload channel differs
from the device channel, and a ReadStatusOfChannelsResponse whose
reported channel count is smaller than the device channel number, both
return the state unchanged. -/
theorem C7_nonmatching_response_ignored (s : LightState) (t1 t2 : Telegram)
    (ch b cnt : Nat)
    (h1op : t1.operate_code = OperateCode.SingleChannelControlResponse)
    (h10 : t1.payload[0]? = some ch)
    (h12 : t1.payload[2]? = some b)
    (hne : ch ≠ s.channel)
    (h2op : t2.operate_code = OperateCode.ReadStatusOfChannelsResponse)
    (h20 : t2.payload[0]? = some cnt)
    (hlt : cnt < s.channel) :
    telegram_received_cb s t1
      = some { state := s, notifications := 0, status_read_triggered := false } ∧
    telegram_received_cb s t2
      = some { state := s, notifications := 0, status_read_triggered := false } := by
  constructor
  · simp [telegram_received_cb, h1op, h10, h12, hne]
  · have hnle : ¬ s.channel ≤ cnt := by omega
    simp [telegram_received_cb, h2op, h20, hnle]

/-- C7 witness: a device on channel 2 ignores a
SingleChannelControlResponse for channel 3 and a
ReadStatusOfChannelsResponse reporting only 1 channel. -/
theorem C7_nonmatching_response_ignored_witness :
    telegram_received_cb (lightInit (1, 2) 2)
        { operate_code := OperateCode.SingleChannelControlResponse
          payload := [3, 1, 50] }
      = some { state := lightInit (1, 2) 2, notifications := 0,
               status_read_triggered := false } ∧
    telegram_received_cb (lightInit (1, 2) 2)
        { operate_code := OperateCode.ReadStatusOfChannelsResponse
          payload := [1, 40] }
      = some { state := lightInit (1, 2) 2, notifications := 0,
               status_read_triggered := false } :=
  C7_nonmatching_response_ignored (lightInit (1, 2) 2)
    { operate_code := OperateCode.SingleChannelControlResponse
      payload := [3, 1, 50] }
    { operate_code := OperateCode.ReadStatusOfChannelsResponse
      payload := [1, 40] }
    3 50 1 rfl rfl rfl (by decide) rfl rfl (by decide)

/-- The invariant of claim C9 as a decidable predicate:
previous_brightness is None or holds a strictly positive value. -/
def prev_ok (s : LightState) : Bool :=
  match s.previous_brightness with
  | none => true
  | some b => decide (0 < b)

/-- Helper: set_previous_brightness preserves the previous-brightness
invariant. -/
theorem prev_ok_set_previous (s : LightState) (b : Nat) (hs : prev_ok s = true) :
    prev_ok (set_previous_brightness s b) = true := by
  unfold set_previous_brightness
  split
  · next h => simpa [prev_ok] using h.2
  · exact hs

/-- Helper: the telegram callback preserves the previous-brightness
invariant whenever it completes. -/
theorem prev_ok_cb (s : LightState) (t : Telegram) (r : CbResult)
    (hs : prev_ok s = true) (hcb : telegram_received_cb s t = some r) :
    prev_ok r.state = true := by
  unfold telegram_received_cb at hcb
  split at hcb
  all_goals (try split at hcb)
  all_goals (try split at hcb)
  all_goals (try split at hcb)
  all_goals
    first
    | exact Option.noConfusion hcb
    | (injection hcb with h
       subst h
       first
       | exact hs
       | exact prev_ok_set_previous _ _ hs)

/-- C9: previous_brightness is None initially and otherwise holds a
strictly positive value; the invariant is preserved by every command
(light_set) and by the telegram callback; _set_previous_brightness
ignores a zero brightness, so set_off never changes
previous_brightness. -/
theorem C9_previous_brightness_invariant (s : LightState) (a : Nat × Nat)
    (ch v : Nat) (o : SendOutcome) (t : Telegram) (r : CbResult)
    (hs : prev_ok s = true)
    (hcb : telegram_received_cb s t = some r) :
    prev_ok (lightInit a ch) = true ∧
    prev_ok (light_set s v o).state = true ∧
    prev_ok r.state = true ∧
    set_previous_brightness s 0 = s ∧
    (set_off s o).state.previous_brightness = s.previous_brightness := by
  refine ⟨rfl, ?_, prev_ok_cb s t r hs hcb, ?_, ?_⟩
  · rw [light_set_state]
    exact prev_ok_set_previous _ _ hs
  · simp [set_previous_brightness]
  · rw [set_off, light_set_state]
    simp [set_previous_brightness]

/-- C9 witness: starting from a fresh device on channel 1 (whose
previous brightness is None) and the response telegram reporting level
40, every conjunct of the invariant holds concretely. -/
theorem C9_previous_brightness_invariant_witness :
    prev_ok (lightInit (3, 4) 2) = true ∧
    prev_ok (light_set (lightInit (1, 2) 1) 55 SendOutcome.timeout).state = true ∧
    prev_ok ({ state := { device_address := (1, 2), channel := 1, brightness := 40,
                          previous_brightness := some 40 },
               notifications := 1, status_read_triggered := false } : CbResult).state
      = true ∧
    set_previous_brightness (lightInit (1, 2) 1) 0 = lightInit (1, 2) 1 ∧
    (set_off (lightInit (1, 2) 1) SendOutcome.timeout).state.previous_brightness
      = (lightInit (1, 2) 1).previous_brightness :=
  C9_previous_brightness_invariant (lightInit (1, 2) 1) (3, 4) 2 55
    SendOutcome.timeout
    { operate_code := OperateCode.SingleChannelControlResponse
      payload := [1, 1, 40] }
    { state := { device_address := (1, 2), channel := 1, brightness := 40,
                 previous_brightness := some 40 },
      notifications := 1, status_read_triggered := false }
    rfl rfl

/-- C10: in every system state reachable from the initial state by the
interleaving semantics of UDPClient.send_message, at most one task is
inside the locked send region at any instant: the send lock serializes
outbound sends, so two commands never interleave on the wire. -/
theorem C10_sends_serialized {n : Nat} (s : SendSystem n)
    (h : Relation.ReflTransGen SendStep (sendInit n) s) :
    at_most_one_sending s := by
  intro i j hi hj
  have hp := lock_protects_reachable h
  have h1 := hp i hi
  have h2 := hp j hj
  rw [h1] at h2
  exact Option.some.inj h2

/-- C10 witness: the initial state of a two-task system is reachable (by
the empty step sequence) and satisfies mutual exclusion. -/
theorem C10_sends_serialized_witness : at_most_one_sending (sendInit 2) :=
  C10_sends_serialized (sendInit 2) Relation.ReflTransGen.refl

/-- C2 counterexample: with a callback registered, a malformed datagram
(the empty byte sequence, shorter than any frame header) is not dropped
before dispatch: _udp_request_received still invokes the registered
callback, passing it the decode-failure value None, because the code has
no guard between the decode step and the callback invocation. -/
theorem C2_counterexample :
    udp_request_received
        { udp_client := some { transport := none }, callback_registered := true }
        []
      = RecvEffect.dispatched none ∧
    (RecvEffect.dispatched none == RecvEffect.no_callback) = false := by decide

/-- C2 amended: for every datagram shorter than the minimum frame
length, with a callback registered, the receive path raises no exception
(the embedded function is total) and passes no decoded telegram; the
registered callback is still invoked, with None in place of a
telegram. -/
theorem C2_amended_malformed_dispatches_none (n : NetworkInterfaceState)
    (data : List Nat)
    (hcb : n.callback_registered = true)
    (hlen : data.length < min_frame_length) :
    udp_request_received n data = RecvEffect.dispatched none := by
  simp [udp_request_received, hcb, build_telegram_from_udp_data, hlen]

/-- C2 amended witness: a three-byte datagram with a callback registered
is dispatched as None. -/
theorem C2_amended_malformed_dispatches_none_witness :
    udp_request_received
        { udp_client := some { transport := none }, callback_registered := true }
        [1, 2, 3]
      = RecvEffect.dispatched none :=
  C2_amended_malformed_dispatches_none
    { udp_client := some { transport := none }, callback_registered := true }
    [1, 2, 3] rfl (by decide)

/-- C4 counterexample: the scenario of the claim — issue a command at
level 80 on a fresh channel-1 device, then deliver the matching
SingleChannelControlResponse at level 80 — emits one observer
notification, not two: Light._set mutates brightness (from 0 to 80) but
never calls _call_device_updated, so the optimistic mutation emits zero
notifications and only the authoritative response emits one. -/
theorem C4_counterexample :
    (lightInit (1, 2) 1).brightness = 0 ∧
    (light_set (lightInit (1, 2) 1) 80 SendOutcome.ok).state.brightness = 80 ∧
    (light_set (lightInit (1, 2) 1) 80 SendOutcome.ok).notifications = 0 ∧
    (telegram_received_cb (light_set (lightInit (1, 2) 1) 80 SendOutcome.ok).state
        { operate_code := OperateCode.SingleChannelControlResponse
          payload := [1, 1, 80] }).map (fun r => r.notifications) = some 1 := by
  decide

/-- C4 amended: observers are notified after every authoritative
mutation but not on optimistic command issuance: every command emits
zero notifications; every matching SingleChannelControlResponse and
every matching ReadStatusOfChannelsResponse emits exactly one
notification; and the claim scenario (command at level 80, then a
matching response at level 80) notifies observers exactly once in
total. -/
theorem C4_notify_only_authoritative (s : LightState) (v w b cnt : Nat)
    (o : SendOutcome) (t1 t2 : Telegram)
    (h1op : t1.operate_code = OperateCode.SingleChannelControlResponse)
    (h10 : t1.payload[0]? = some s.channel)
    (h12 : t1.payload[2]? = some w)
    (h2op : t2.operate_code = OperateCode.ReadStatusOfChannelsResponse)
    (h20 : t2.payload[0]? = some cnt)
    (hle : s.channel ≤ cnt)
    (h2c : t2.payload[s.channel]? = some b) :
    (light_set s v o).notifications = 0 ∧
    (telegram_received_cb s t1).map (fun r => r.notifications) = some 1 ∧
    (telegram_received_cb s t2).map (fun r => r.notifications) = some 1 ∧
    (light_set (lightInit (1, 2) 1) 80 SendOutcome.ok).notifications +
      ((telegram_received_cb
          (light_set (lightInit (1, 2) 1) 80 SendOutcome.ok).state
          { operate_code := OperateCode.SingleChannelControlResponse
            payload := [1, 1, 80] }).map (fun r => r.notifications)).getD 0 = 1 := by
  refine ⟨?_, ?_, ?_, ?_⟩
  · cases o <;> rfl
  · simp [telegram_received_cb, h1op, h10, h12]
  · simp [telegram_received_cb, h2op, h20, hle, h2c]
  · decide

/-- C4 amended witness: on a fresh channel-1 device, the command emits
zero notifications, a matching SingleChannelControlResponse at level 80
and a ReadStatusOfChannelsResponse reporting 2 channels each emit
exactly one, and the scenario total is one. -/
theorem C4_notify_only_authoritative_witness :
    (light_set (lightInit (1, 2) 1) 60 SendOutcome.ok).notifications = 0 ∧
    (telegram_received_cb (lightInit (1, 2) 1)
        { operate_code := OperateCode.SingleChannelControlResponse
          payload := [1, 1, 80] }).map (fun r => r.notifications) = some 1 ∧
    (telegram_received_cb (lightInit (1, 2) 1)
        { operate_code := OperateCode.ReadStatusOfChannelsResponse
          payload := [2, 40, 55] }).map (fun r => r.notifications) = some 1 ∧
    (light_set (lightInit (1, 2) 1) 80 SendOutcome.ok).notifications +
      ((telegram_received_cb
          (light_set (lightInit (1, 2) 1) 80 SendOutcome.ok).state
          { operate_code := OperateCode.SingleChannelControlResponse
            payload := [1, 1, 80] }).map (fun r => r.notifications)).getD 0 = 1 :=
  C4_notify_only_authoritative (lightInit (1, 2) 1) 60 80 40 2 SendOutcome.ok
    { operate_code := OperateCode.SingleChannelControlResponse
      payload := [1, 1, 80] }
    { operate_code := OperateCode.ReadStatusOfChannelsResponse
      payload := [2, 40, 55] }
    rfl rfl rfl rfl rfl (by decide) rfl

/-- C8 counterexample: a freshly constructed Light is not in a
distinguishable Unknown state: Light.__init__ sets brightness to 0, and
delivering an authoritative SingleChannelControlResponse reporting level
0 leaves the device in exactly the initial state, so the initial state
coincides with the Known state of value 0. -/
theorem C8_counterexample :
    (lightInit (1, 2) 1).brightness = 0 ∧
    telegram_received_cb (lightInit (1, 2) 1)
        { operate_code := OperateCode.SingleChannelControlResponse
          payload := [1, 1, 0] }
      = some { state := lightInit (1, 2) 1, notifications := 1,
               status_read_triggered := false } := by
  decide

/-- C8 amended: a freshly constructed device starts with brightness 0
and previous_brightness None: the cached brightness of a fresh device
equals the Known value 0 rather than a distinct Unknown state; only
previous_brightness None marks that no positive level was ever seen. -/
theorem C8_initial_state (a : Nat × Nat) (ch : Nat) :
    (lightInit a ch).brightness = 0 ∧
    (lightInit a ch).previous_brightness = none ∧
    lightInit a ch = { device_address := a, channel := ch, brightness := 0,
                       previous_brightness := none } :=
  ⟨rfl, rfl, rfl⟩

end Buspro
